import Mathlib

/-!
Verification of the `type-safe-errors` repository: the README usage
examples and the basic example script, together with a model of the
library's `Ok` / `Err` / `Result` chaining semantics described by the
documentation (the implementation itself is not among the provided
source files, so it is modelled from the spec).
-/

namespace TypeSafeErrors

/-- Modelled from the spec: a runtime failure value.  The library's
implementation is not in the provided sources; the spec says failures are
class instances matched by the standard JS `instanceof` feature
(README Troubleshooting), so a failure carries the identity of its own
class followed by the identities of its ancestor classes (the prototype
chain that `instanceof` walks), plus its `name` field as in the README
examples. -/
structure ErrValue where
  classes : List Nat
  name : String
deriving DecidableEq, Repr

/-- Modelled from the spec: the runtime check performed by the JS
`instanceof` operator, on which the README Troubleshooting section says
the library depends: the given class is looked up in the failure value's
class (prototype) chain. -/
def instanceOf (e : ErrValue) (cls : Nat) : Bool :=
  e.classes.contains cls

/-- Modelled from the spec: a `Result` is either a success payload or a
typed failure (spec glossary: "a value representing either a success
payload or a typed failure, used in place of throwing"). -/
inductive Res (α : Type) where
  | ok : α → Res α
  | err : ErrValue → Res α
deriving DecidableEq, Repr

/-- Modelled from the spec: `Ok.of(value)` constructs a success result. -/
def Ok.of {α : Type} (v : α) : Res α := Res.ok v

/-- Modelled from the spec: `Err.of(error)` constructs a failure result. -/
def Err.of {α : Type} (e : ErrValue) : Res α := Res.err e

/-- Modelled from the spec: `.map(fn)` transforms only success results
(spec: "chain `.map(fn)` for success transformation"); a failure passes
through untouched. -/
def Res.map {α β : Type} (r : Res α) (f : α → β) : Res β :=
  match r with
  | .ok v => .ok (f v)
  | .err e => .err e

/-- Modelled from the spec: `.mapErr(ErrorClass, fn)` recovers from a
failure only when it matches the specified failure variant — the
`instanceof` check against `ErrorClass` — replacing it by the handler's
return value; a success, or a failure of any other variant, passes
through unhandled. -/
def Res.mapErr {α : Type} (r : Res α) (cls : Nat) (f : ErrValue → α) : Res α :=
  match r with
  | .ok v => .ok v
  | .err e => if instanceOf e cls then .ok (f e) else .err e

/-- Modelled from the spec: the terminal resolving call (`.promise()`):
the chain yields a terminal promise that resolves with the success value
or rejects with the failure value. -/
def Res.promise {α : Type} (r : Res α) : Except ErrValue α :=
  match r with
  | .ok v => .ok v
  | .err e => .error e

/-- Modelled from the spec: `Result.from(factory)` starts a result chain
from a (possibly async) factory call; the awaited chain value is the
result the factory settles with. -/
def Result.fromFn {α : Type} (factory : Unit → Res α) : Res α :=
  factory ()

/-- A single attached step of a result chain: a `.map(fn)` step or a
`.mapErr(ErrorClass, fn)` step. -/
inductive Step (α : Type) where
  | map : (α → α) → Step α
  | mapErr : Nat → (ErrValue → α) → Step α

/-- Whether a chain step is a `.map` (success-transformation) step. -/
def Step.isMap {α : Type} : Step α → Bool
  | .map _ => true
  | .mapErr _ _ => false

/-- Run one attached step on the current chain value. -/
def runStep {α : Type} (s : Step α) (r : Res α) : Res α :=
  match s with
  | .map f => r.map f
  | .mapErr cls f => r.mapErr cls f

/-- Run one attached step, also reporting whether the step's callback was
invoked: a `.map` callback runs only on a success, a `.mapErr` callback
only on a failure matching the declared variant. -/
def runStepInv {α : Type} (s : Step α) (r : Res α) : Res α × Bool :=
  match s, r with
  | .map f, .ok v => (.ok (f v), true)
  | .map _, .err e => (.err e, false)
  | .mapErr _ _, .ok v => (.ok v, false)
  | .mapErr cls f, .err e =>
      if instanceOf e cls then (.ok (f e), true) else (.err e, false)

/-- Run a chain of attached steps in attachment order. -/
def runChain {α : Type} (steps : List (Step α)) (r : Res α) : Res α :=
  match steps with
  | [] => r
  | s :: rest => runChain rest (runStep s r)

/-- Run a chain of attached steps in attachment order, also recording,
position by position, whether each step's callback was invoked. -/
def runChainInv {α : Type} (steps : List (Step α)) (r : Res α) :
    Res α × List Bool :=
  match steps with
  | [] => (r, [])
  | s :: rest =>
      let p := runStepInv s r
      let q := runChainInv rest p.1
      (q.1, p.2 :: q.2)

/-! ## The basic example script (`src/examples/basic-example/index.ts`) -/

/-- A small universe of JS values, enough for the example script: the
`.mapErr` handlers return strings, while the success value produced by
the external `payForProduct` is an arbitrary JS value. -/
inductive JSValue where
  | str : String → JSValue
  | num : ℚ → JSValue
  | bool : Bool → JSValue
  | nullv : JSValue
  | undef : JSValue
deriving DecidableEq, Repr

/-- The shape of the `userCard` mock object of the example script. -/
structure Card where
  number : String
  cvc : String
deriving DecidableEq, Repr

/-- The shape of the `product` mock object of the example script
(`price` is `12.5` or `null`). -/
structure Product where
  price : Option ℚ
deriving DecidableEq, Repr

/-- The `userCard` object: `number` is the constant `'1234'`; `cvc` is
`'456'` or `''` depending on the draw `d`, which stands for the outcome
of `Math.random() > 0.5`. -/
def userCard (d : Bool) : Card :=
  { number := "1234", cvc := if d then "456" else "" }

/-- The `product` object: `price` is `12.5` or `null` depending on the
draw `d`, which stands for the outcome of `Math.random() > 0.5`. -/
def product (d : Bool) : Product :=
  { price := if d then some (25 / 2 : ℚ) else none }

/-- Modelled from the spec: the identity of the `InvalidCVCError` class.
The class itself is imported from `./types`, which is not among the
provided sources, so it is kept as an abstract class identity. -/
def invalidCVCErrorClass : Nat := 0

/-- Modelled from the spec: the identity of the `MissingPriceError`
class, likewise imported from `./types` and kept abstract. -/
def missingPriceErrorClass : Nat := 1

/-- The example script, embedded statement by statement from
`src/examples/basic-example/index.ts`.  `payForProduct` is imported from
`./pay`, which is not among the provided sources, so the script is
parametric in its behaviour `pf`; `d1` and `d2` are the two
`Math.random() > 0.5` draws; the returned value is the resolution of the
final promise, which the script's last line logs. -/
def exampleScript (pf : Card → Product → Res JSValue) (d1 d2 : Bool) :
    Except ErrValue JSValue :=
  let card := userCard d1
  let prod := product d2
  let paymentResult :=
    ((Result.fromFn (fun _ => pf card prod)).mapErr invalidCVCErrorClass
        (fun _ => JSValue.str "Your card do not have proper CVC code")).mapErr
      missingPriceErrorClass (fun _ => JSValue.str "Product do not have price")
  paymentResult.promise

/-- The spec's description of the script, as a chain: a single wrapped
`payForProduct` call, two attached typed `.mapErr` recovery steps run in
attachment order, then the terminal promise. -/
def exampleScriptDescribed (pf : Card → Product → Res JSValue)
    (d1 d2 : Bool) : Except ErrValue JSValue :=
  (runChain
    [Step.mapErr invalidCVCErrorClass
        (fun _ => JSValue.str "Your card do not have proper CVC code"),
      Step.mapErr missingPriceErrorClass
        (fun _ => JSValue.str "Product do not have price")]
    (pf (userCard d1) (product d2))).promise

/-! ## The README `authorizeUser` examples -/

/-- The success payload of `authorizeUser`:
`{ name: 'admin', isAdmin: true }`. -/
structure User where
  name : String
  isAdmin : Bool
deriving DecidableEq, Repr

/-- Modelled from the spec: the identity of the built-in JS `Error`
class which `InvalidCredentialsError` extends. -/
def jsErrorClass : Nat := 10

/-- Modelled from the spec: the identity of the
`InvalidCredentialsError` class of the README examples. -/
def invalidCredentialsErrorClass : Nat := 11

/-- A fresh `new InvalidCredentialsError()` instance: its class chain is
`InvalidCredentialsError extends Error`, and its `name` field is the
declared constant `'InvalidCredentialsError'`. -/
def invalidCredentialsError : ErrValue :=
  { classes := [invalidCredentialsErrorClass, jsErrorClass],
    name := "InvalidCredentialsError" }

/-- JS loose equality `==` applied to two string operands: per the JS
abstract-equality algorithm no coercion happens when both operands are
strings, so it coincides with strict string comparison. -/
def jsLooseEqString (a b : String) : Bool := a == b

/-- The synchronous `authorizeUser` of the README basic example: the
username is compared with `===` and the password with loose `==` against
`'admin'`. -/
def authorizeUser (username password : String) : Res User :=
  if username == "admin" && jsLooseEqString password "admin" then
    Ok.of { name := "admin", isAdmin := true }
  else
    Err.of invalidCredentialsError

/-- The asynchronous `authorizeUser` of the README async example, as its
awaited result: `storedPassword` is the awaited `Promise.resolve('admin')`
and the password is compared to it with strict `===`. -/
def authorizeUserAsync (username password : String) : Res User :=
  let storedPassword := "admin"
  if username == "admin" && password == storedPassword then
    Ok.of { name := "admin", isAdmin := true }
  else
    Err.of invalidCredentialsError

/-! ## Claim theorems -/

/-- Running a concatenation of attached steps runs the earlier-attached
block first, then the later one on its outcome. -/
theorem runChain_append {α : Type} (xs ys : List (Step α)) (r : Res α) :
    runChain (xs ++ ys) r = runChain ys (runChain xs r) := by
  induction xs generalizing r with
  | nil => rfl
  | cons s rest ih => simp [runChain, ih]

/-- C1: for every failure value, a `.mapErr(ErrorClass, fn)` step
invokes its handler and recovers the failure exactly when the failure
matches the specified variant; a failure of any other variant passes
through that step unhandled (unchanged, so it remains available for
further chaining). -/
theorem mapErr_recovers_iff_match {α : Type} (e : ErrValue) (cls : Nat)
    (f : ErrValue → α) :
    (instanceOf e cls = true →
      runStepInv (Step.mapErr cls f) (Res.err e) = (Res.ok (f e), true)) ∧
    (instanceOf e cls = false →
      runStepInv (Step.mapErr cls f) (Res.err e) = (Res.err e, false)) := by
  constructor <;> intro h <;> simp [runStepInv, h]

/-- Witness for C1 at concrete inputs: a failure of class `0` is
recovered by a `.mapErr` declared for class `0` and passes through one
declared for class `1`. -/
theorem mapErr_recovers_iff_match_witness :
    runStepInv (Step.mapErr 0 (fun _ => "recovered"))
        (Res.err ⟨[0], "boom"⟩) = (Res.ok "recovered", true) ∧
    runStepInv (Step.mapErr 1 (fun _ => "recovered"))
        (Res.err ⟨[0], "boom"⟩) = (Res.err ⟨[0], "boom"⟩, false) :=
  ⟨(mapErr_recovers_iff_match ⟨[0], "boom"⟩ 0 _).1 (by decide),
   (mapErr_recovers_iff_match ⟨[0], "boom"⟩ 1 _).2 (by decide)⟩

/-- C2: attached steps are evaluated in attachment order (a chain of
earlier steps runs before later ones), each `.mapErr` step invokes its
handler only after the failure matches its declared variant, and with
two attached `.mapErr` handlers the first-attached matching handler runs
while the later one is not invoked. -/
theorem mapErr_order_and_match {α : Type} :
    (∀ (xs ys : List (Step α)) (r : Res α),
      runChain (xs ++ ys) r = runChain ys (runChain xs r)) ∧
    (∀ (cls : Nat) (f : ErrValue → α) (e : ErrValue),
      (runStepInv (Step.mapErr cls f) (Res.err e)).2 = instanceOf e cls) ∧
    (∀ (cls : Nat) (f : ErrValue → α) (v : α),
      (runStepInv (Step.mapErr cls f) (Res.ok v)).2 = false) ∧
    (∀ (e : ErrValue) (c1 c2 : Nat) (f g : ErrValue → α),
      instanceOf e c1 = true →
        runChainInv [Step.mapErr c1 f, Step.mapErr c2 g] (Res.err e) =
          (Res.ok (f e), [true, false])) := by
  refine ⟨runChain_append, ?_, ?_, ?_⟩
  · intro cls f e
    by_cases h : instanceOf e cls = true <;> simp [runStepInv, h]
  · intro cls f v
    simp [runStepInv]
  · intro e c1 c2 f g h
    simp [runChainInv, runStepInv, h]

/-- Witness for C2 at concrete inputs: a failure of class `0` against
two attached `.mapErr` steps both declared for class `0`: the first
handler runs, the second does not. -/
theorem mapErr_order_and_match_witness :
    runChainInv
        [Step.mapErr 0 (fun _ => "first"), Step.mapErr 0 (fun _ => "second")]
        (Res.err ⟨[0], "boom"⟩) =
      (Res.ok "first", [true, false]) :=
  (mapErr_order_and_match (α := String)).2.2.2 ⟨[0], "boom"⟩ 0 0
    (fun _ => "first") (fun _ => "second") (by decide)

/-- C3: a chain short-circuits on a typed failure: a `.map` step's
callback is skipped (not invoked, failure unchanged) on a failure, any
chain consisting only of `.map` steps leaves a failure untouched, and
once a matching `.mapErr` recovers the failure a subsequent `.map`
applies again. -/
theorem err_short_circuits_maps {α : Type} (e : ErrValue) :
    (∀ f : α → α, runStepInv (Step.map f) (Res.err e) = (Res.err e, false)) ∧
    (∀ steps : List (Step α), (∀ s ∈ steps, s.isMap = true) →
      runChain steps (Res.err e) = Res.err e) ∧
    (∀ (cls : Nat) (g : ErrValue → α) (f : α → α), instanceOf e cls = true →
      runChain [Step.mapErr cls g, Step.map f] (Res.err e) =
        Res.ok (f (g e))) := by
  refine ⟨fun f => rfl, ?_, ?_⟩
  · intro steps h
    induction steps with
    | nil => rfl
    | cons s rest ih =>
        have hs : s.isMap = true := h s (List.mem_cons_self s rest)
        match s, hs with
        | Step.map f, _ =>
            simp only [runChain, runStep, Res.map]
            exact ih fun t ht => h t (List.mem_cons_of_mem _ ht)
  · intro cls g f h
    simp [runChain, runStep, Res.mapErr, Res.map, h]

/-- Witness for C3 at concrete inputs: a failure of class `0` passes a
pure-`.map` chain untouched, and after recovery by a matching `.mapErr`
the next `.map` applies. -/
theorem err_short_circuits_maps_witness :
    runChain [Step.map (fun s => s ++ "!"), Step.map (fun s => s ++ "?")]
        (Res.err ⟨[0], "boom"⟩) = Res.err ⟨[0], "boom"⟩ ∧
    runChain [Step.mapErr 0 (fun _ => "fixed"), Step.map (fun s => s ++ "!")]
        (Res.err ⟨[0], "boom"⟩) = Res.ok "fixed!" :=
  ⟨(err_short_circuits_maps ⟨[0], "boom"⟩).2.1
      [Step.map (fun s => s ++ "!"), Step.map (fun s => s ++ "?")]
      (by intro s hs; rcases hs with _ | ⟨_, hs⟩; · rfl
          rcases hs with _ | ⟨_, hs⟩; · rfl
          cases hs),
   (err_short_circuits_maps ⟨[0], "boom"⟩).2.2 0 (fun _ => "fixed")
      (fun s => s ++ "!") (by decide)⟩

/-- C4: the public interface contract: `Ok.of(value)` constructs a
success result and `Err.of(error)` a failure result; `.map(fn)`
transforms only success results; `.mapErr(ErrorClass, fn)` performs
typed, class-matched recovery; and the resolving call yields a terminal
promise that always settles (resolves on success, rejects on failure). -/
theorem public_interface_contract {α : Type} :
    (∀ v : α, (Ok.of v : Res α) = Res.ok v ∧
      (Ok.of v : Res α).promise = Except.ok v) ∧
    (∀ e : ErrValue, (Err.of e : Res α) = Res.err e ∧
      (Err.of e : Res α).promise = Except.error e) ∧
    (∀ (v : α) (f : α → α), (Ok.of v : Res α).map f = Ok.of (f v)) ∧
    (∀ (e : ErrValue) (f : α → α), (Err.of e : Res α).map f = Err.of e) ∧
    (∀ (e : ErrValue) (cls : Nat) (f : ErrValue → α),
      (Err.of e : Res α).mapErr cls f =
        if instanceOf e cls then Ok.of (f e) else Err.of e) ∧
    (∀ r : Res α,
      (∃ v, r.promise = Except.ok v) ∨ ∃ e, r.promise = Except.error e) := by
  refine ⟨fun v => ⟨rfl, rfl⟩, fun e => ⟨rfl, rfl⟩, fun v f => rfl,
    fun e f => rfl, fun e cls f => rfl, fun r => ?_⟩
  cases r with
  | ok v => exact Or.inl ⟨v, rfl⟩
  | err e => exact Or.inr ⟨e, rfl⟩

/-- C5: domain failures are carried as typed values in the `Result`
rather than thrown: every result is a success value or a carried failure
value that the terminal promise surfaces intact, and a caller branching
on a known variant via `.mapErr` receives the failure value itself (no
information lost), while non-matching variants remain carried. -/
theorem typed_failures_not_thrown {α : Type} :
    (∀ e : ErrValue, (Err.of e : Res α) = Res.err e) ∧
    (∀ r : Res α, (∃ v, r = Ok.of v) ∨ ∃ e, r = Err.of e ∧
      r.promise = Except.error e) ∧
    (∀ (e : ErrValue) (cls : Nat) (f : ErrValue → α),
      instanceOf e cls = true →
        (Err.of e : Res α).mapErr cls f = Ok.of (f e)) ∧
    (∀ (e : ErrValue) (cls : Nat) (f : ErrValue → α),
      instanceOf e cls = false →
        (Err.of e : Res α).mapErr cls f = Err.of e) := by
  refine ⟨fun e => rfl, ?_, ?_, ?_⟩
  · intro r
    cases r with
    | ok v => exact Or.inl ⟨v, rfl⟩
    | err e => exact Or.inr ⟨e, rfl, rfl⟩
  · intro e cls f h
    simp [Err.of, Ok.of, Res.mapErr, h]
  · intro e cls f h
    simp [Err.of, Ok.of, Res.mapErr, h]

/-- Witness for C5 at concrete inputs: a carried failure of class `0`
is handed, itself, to a matching handler, and stays carried past a
non-matching one. -/
theorem typed_failures_not_thrown_witness :
    (Err.of ⟨[0], "boom"⟩ : Res String).mapErr 0 (fun e => e.name) =
      Ok.of "boom" ∧
    (Err.of ⟨[0], "boom"⟩ : Res String).mapErr 1 (fun e => e.name) =
      Err.of ⟨[0], "boom"⟩ :=
  ⟨(typed_failures_not_thrown (α := String)).2.2.1 ⟨[0], "boom"⟩ 0
      (fun e => e.name) (by decide),
   (typed_failures_not_thrown (α := String)).2.2.2 ⟨[0], "boom"⟩ 1
      (fun e => e.name) (by decide)⟩

/-- C6: the variant matching performed by `.mapErr(ErrorClass, fn)` is
the runtime `instanceof` check of the failure value against the given
error class: the handler-invocation outcome equals that check, and the
check is a lookup of the class in the failure value's class chain. -/
theorem mapErr_match_is_instanceof {α : Type} (e : ErrValue) (cls : Nat)
    (f : ErrValue → α) :
    (runStepInv (Step.mapErr cls f) (Res.err e)).2 = instanceOf e cls ∧
    instanceOf e cls = e.classes.contains cls := by
  refine ⟨?_, rfl⟩
  by_cases h : instanceOf e cls = true <;> simp [runStepInv, h]

/-- C7: for every behaviour of the external `payForProduct` and every
pair of random draws, the example script's executable logic is exactly
the spec's description: construct the two mock objects, invoke
`payForProduct` through the `Result.from` wrapper, attach the two typed
`.mapErr` recovery callbacks in order, and settle the resulting final
promise (whose resolution the last line logs). -/
theorem exampleScript_is_described_chain
    (pf : Card → Product → Res JSValue) (d1 d2 : Bool) :
    exampleScript pf d1 d2 = exampleScriptDescribed pf d1 d2 := by
  cases h : pf (userCard d1) (product d2) with
  | ok v =>
      simp [exampleScript, exampleScriptDescribed, Result.fromFn, runChain,
        runStep, Res.mapErr, h]
  | err e =>
      by_cases h1 : instanceOf e invalidCVCErrorClass <;>
        by_cases h2 : instanceOf e missingPriceErrorClass <;>
          simp [exampleScript, exampleScriptDescribed, Result.fromFn,
            runChain, runStep, Res.mapErr, h, h1, h2]

/-- C8: the example's data entities: `userCard.cvc` is `'456'` or `''`
and `product.price` is `12.5` or `null`, each decided by its random
draw with both outcomes realized, and the two referenced error tags are
distinct abstract classes (they are not defined in the shown content). -/
theorem example_entities_shape :
    (∀ d : Bool, (userCard d).cvc = "456" ∨ (userCard d).cvc = "") ∧
    (userCard true).cvc = "456" ∧ (userCard false).cvc = "" ∧
    (∀ d : Bool, (product d).price = some (25 / 2 : ℚ) ∨
      (product d).price = none) ∧
    (product true).price = some (25 / 2 : ℚ) ∧
    (product false).price = none ∧
    invalidCVCErrorClass ≠ missingPriceErrorClass := by
  refine ⟨?_, rfl, rfl, ?_, rfl, rfl, by decide⟩ <;>
    intro d <;> cases d
  · exact Or.inr rfl
  · exact Or.inl rfl
  · exact Or.inr rfl
  · exact Or.inl rfl

/-- C9: the synchronous `authorizeUser` of the README basic example
(loose `==` on the password) and the asynchronous one of the async
example (strict `===` against the awaited stored password) make the
same decision on every pair of string inputs: `Ok` of
`{ name: 'admin', isAdmin: true }` exactly when both username and
password equal `'admin'`, and `Err` of a fresh
`InvalidCredentialsError` otherwise. -/
theorem authorizeUser_sync_async_agree (u p : String) :
    authorizeUser u p = authorizeUserAsync u p ∧
    (authorizeUser u p = Ok.of { name := "admin", isAdmin := true } ↔
      u = "admin" ∧ p = "admin") ∧
    (¬(u = "admin" ∧ p = "admin") →
      authorizeUser u p = Err.of invalidCredentialsError) := by
  by_cases h : u = "admin" ∧ p = "admin"
  · obtain ⟨hu, hp⟩ := h
    subst hu hp
    exact ⟨rfl, by simp [authorizeUser, jsLooseEqString, Ok.of], fun hc =>
      absurd ⟨rfl, rfl⟩ hc⟩
  · have hcond : ¬(u == "admin" && jsLooseEqString p "admin") = true := by
      simp only [jsLooseEqString, Bool.and_eq_true, beq_iff_eq]
      exact h
    refine ⟨?_, ?_, fun _ => ?_⟩
    · simp only [authorizeUser, authorizeUserAsync, jsLooseEqString]
    · simp only [authorizeUser, if_neg hcond]
      constructor
      · intro hbad
        exact absurd hbad (by simp [Err.of, Ok.of])
      · intro hyp
        exact absurd hyp h
    · simp only [authorizeUser, if_neg hcond]

/-- Witness for C9 at concrete inputs: correct credentials authorize,
a wrong password yields the typed failure. -/
theorem authorizeUser_sync_async_agree_witness :
    authorizeUser "admin" "admin" =
      Ok.of { name := "admin", isAdmin := true } ∧
    authorizeUser "admin" "hunter2" = Err.of invalidCredentialsError :=
  ⟨(authorizeUser_sync_async_agree "admin" "admin").2.1.mpr ⟨rfl, rfl⟩,
   (authorizeUser_sync_async_agree "admin" "hunter2").2.2
      (by simp)⟩

/-- C10: only `userCard.cvc` and `product.price` depend on the random
draws (and they genuinely do), while every other field is constant: in
particular `userCard.number` is `'1234'` on every run. -/
theorem only_cvc_and_price_random :
    (∀ d : Bool, (userCard d).number = "1234") ∧
    (userCard true).cvc ≠ (userCard false).cvc ∧
    (product true).price ≠ (product false).price := by
  refine ⟨fun d => ?_, by decide, by decide⟩
  cases d <;> rfl

end TypeSafeErrors
